import Mathlib

/-!
Verification of the frame-by-frame video-annotation pipeline of `teste5.py`
(`analyze_emotions`, `draw_emotions_on_frame`, `generate_context_from_emotions`
/ `plot_emotion_distribution`) as a shallow embedding.

Modelling conventions:
* A decoded raster is identified by a natural number (`Frame.raster`); the
  OpenCV drawing primitives `cv2.rectangle` / `cv2.putText` are external, so a
  frame records the ordered list of drawing operations that were applied to the
  raster.  Two frames are pixel-identical exactly when they have the same
  raster and the same operation list.
* `DeepFace.analyze` is an opaque external call; a run is parametrised by a
  function `det : Nat → AnalyzeOutcome` giving, for each 0-based frame index,
  either the value DeepFace returned (a single record or a list of records, the
  two shapes the `isinstance(analysis, list)` check in line 57 distinguishes)
  or the exception it raised.
* Python's `frame_number / frame_count` (line 62) is exact rational division
  and raises `ZeroDivisionError` when `frame_count` is 0; the Streamlit
  progress widget itself is external and is modelled as recording the values
  passed to it.
* `logger.warning(f"Erro ao processar o frame {frame_number}: {e}")` (line 59)
  formats exactly the frame index and the exception text into one message; the
  log is modelled as the list of those `(frame_number, reason)` pairs.
-/

/-- A BGR colour triple as passed to the OpenCV drawing calls. -/
abbrev Color := Nat × Nat × Nat

/-- `EMOTIONS_COLORS` (lines 71-80): the static emotion-to-colour table,
as an insertion-ordered association list (a Python dict literal). -/
def EMOTIONS_COLORS : List (String × Color) :=
  [("happy", (0, 255, 0)),
   ("sad", (255, 0, 0)),
   ("angry", (0, 0, 255)),
   ("surprise", (255, 255, 0)),
   ("fear", (128, 0, 128)),
   ("neutral", (255, 255, 255)),
   ("disgust", (0, 128, 0)),
   ("Unknown", (128, 128, 128))]

/-- Python `d.get(k, dflt)` on an association list with string keys. -/
def dictGet {α : Type} (d : List (String × α)) (k : String) (dflt : α) : α :=
  match d.find? (fun p => p.1 == k) with
  | some p => p.2
  | none => dflt

/-- The `region` sub-dictionary of a DeepFace record.  Each coordinate is
optional because the drawing code reads it with `.get("x", 0)` etc.
(line 86). -/
structure Region where
  x? : Option Int
  y? : Option Int
  w? : Option Int
  h? : Option Int
deriving DecidableEq

/-- One DeepFace record: the `"region"` key may be absent (line 85 tests
`"region" in face_data`) and `"dominant_emotion"` is read with
`.get("dominant_emotion", "Unknown")` (lines 87, 98, 114). -/
structure FaceData where
  region? : Option Region
  dominant_emotion? : Option String
deriving DecidableEq

/-- One drawing operation applied in place to a frame's raster by an OpenCV
call in `draw_emotions_on_frame` (lines 89-90). -/
inductive DrawOp where
  | rectangle (p1 p2 : Int × Int) (color : Color) (thickness : Nat)
  | putText (text : String) (org : Int × Int) (fontScale : Rat) (color : Color)
      (thickness : Nat)
deriving DecidableEq

/-- A video frame: the identity of the decoded raster plus the drawing
operations applied to it so far (none, when freshly read from the source). -/
structure Frame where
  raster : Nat
  ops : List DrawOp
deriving DecidableEq

/-- `cv2.rectangle(frame, p1, p2, color, thickness)`: appends the operation;
OpenCV clips coordinates outside the raster and does not raise. -/
def cv2_rectangle (fr : Frame) (p1 p2 : Int × Int) (color : Color)
    (thickness : Nat) : Frame :=
  ⟨fr.raster, fr.ops ++ [DrawOp.rectangle p1 p2 color thickness]⟩

/-- `cv2.putText(frame, text, org, font, fontScale, color, thickness)`:
appends the operation; OpenCV clips and does not raise. -/
def cv2_putText (fr : Frame) (text : String) (org : Int × Int)
    (fontScale : Rat) (color : Color) (thickness : Nat) : Frame :=
  ⟨fr.raster, fr.ops ++ [DrawOp.putText text org fontScale color thickness]⟩

/-- The body of the `for face_data in analysis` loop of
`draw_emotions_on_frame` (lines 84-90): skip records with no `"region"` key,
default missing coordinates to 0, default a missing `"dominant_emotion"` to
`"Unknown"`, look the label up in `EMOTIONS_COLORS` with fallback
`(255, 255, 255)`, then draw the rectangle and the label text 10 pixels above
its top-left corner. -/
def draw_face (fr : Frame) (face_data : FaceData) : Frame :=
  match face_data.region? with
  | none => fr
  | some region =>
    let x : Int := region.x?.getD 0
    let y : Int := region.y?.getD 0
    let w : Int := region.w?.getD 0
    let h : Int := region.h?.getD 0
    let emotion : String := face_data.dominant_emotion?.getD "Unknown"
    let color : Color := dictGet EMOTIONS_COLORS emotion (255, 255, 255)
    cv2_putText (cv2_rectangle fr (x, y) (x + w, y + h) color 2)
      emotion (x, y - 10) (9 / 10 : Rat) color 2

/-- `draw_emotions_on_frame(frame, analysis)` (lines 83-91). -/
def draw_emotions_on_frame (frame : Frame) (analysis : List FaceData) : Frame :=
  analysis.foldl draw_face frame

/-- The value `DeepFace.analyze` returned when it did not raise: a single
record or a list of records (the two shapes line 57 distinguishes with
`isinstance(analysis, list)`). -/
inductive AnalyzeValue where
  | single (fd : FaceData)
  | listed (fds : List FaceData)
deriving DecidableEq

/-- `analysis if isinstance(analysis, list) else [analysis]` (line 57). -/
def normalize_analysis : AnalyzeValue → List FaceData
  | AnalyzeValue.single fd => [fd]
  | AnalyzeValue.listed fds => fds

/-- Outcome of the opaque `DeepFace.analyze` call on one frame: a returned
value, or a raised exception with its message. -/
inductive AnalyzeOutcome where
  | ok (v : AnalyzeValue)
  | raises (msg : String)

/-- The frame value written to the sink for frame index `i` (lines 55-60):
on success the frame is reassigned to the annotated frame, on an exception the
`frame` variable keeps the raw frame just read, and `output_video.write(frame)`
runs either way. -/
def frameOutput (det : Nat → AnalyzeOutcome) (i : Nat) (frame : Frame) : Frame :=
  match det i with
  | AnalyzeOutcome.ok v => draw_emotions_on_frame frame (normalize_analysis v)
  | AnalyzeOutcome.raises _ => frame

/-- The warnings logged while processing frame index `i` (lines 58-59): one
`(frame_number, reason)` pair when `DeepFace.analyze` raised, none otherwise. -/
def frameWarnings (det : Nat → AnalyzeOutcome) (i : Nat) : List (Nat × String) :=
  match det i with
  | AnalyzeOutcome.ok _ => []
  | AnalyzeOutcome.raises msg => [(i, msg)]

/-- The detection records the detector produced for frame index `i` (after the
line-57 normalisation); none when it raised. -/
def frameObserved (det : Nat → AnalyzeOutcome) (i : Nat) : List FaceData :=
  match det i with
  | AnalyzeOutcome.ok v => normalize_analysis v
  | AnalyzeOutcome.raises _ => []

/-- The observable trace of the `while video_capture.isOpened()` loop
(lines 51-62). -/
structure LoopOut where
  /-- frames passed to `output_video.write`, in order -/
  written : List Frame
  /-- `(frame_number, reason)` pairs passed to `logger.warning` -/
  logs : List (Nat × String)
  /-- values passed to `progress_bar.progress` -/
  progress : List Rat
  /-- every detection record returned by the detector during the run -/
  observed : List FaceData
  /-- `none` when the loop ended by `break`; `some e` when an uncaught
  exception `e` escaped the loop body -/
  err : Option String
deriving DecidableEq

/-- The loop of `analyze_emotions` (lines 51-62), processing the remaining
readable frames with `frame_number` as the index of the first of them.  Each
iteration reads a frame, runs the `try`/`except` block, writes the (possibly
annotated) frame, increments `frame_number`, and evaluates
`frame_number / frame_count`: when `frame_count` is 0 that division raises
`ZeroDivisionError` (uncaught — it is outside the `try` block), which aborts
the loop after the write; otherwise the quotient is reported as progress and
the loop continues. -/
def processFrames (det : Nat → AnalyzeOutcome) (frame_count : Nat) :
    List Frame → Nat → LoopOut
  | [], _ => ⟨[], [], [], [], none⟩
  | frame :: rest, frame_number =>
    if frame_count = 0 then
      ⟨[frameOutput det frame_number frame], frameWarnings det frame_number, [],
        frameObserved det frame_number, some "ZeroDivisionError"⟩
    else
      let r := processFrames det frame_count rest (frame_number + 1)
      ⟨frameOutput det frame_number frame :: r.written,
        frameWarnings det frame_number ++ r.logs,
        ((frame_number + 1 : Nat) : Rat) / (frame_count : Rat) :: r.progress,
        frameObserved det frame_number ++ r.observed,
        r.err⟩

/-- The observable result of one `analyze_emotions` run. -/
structure RunResult where
  written : List Frame
  logs : List (Nat × String)
  progress : List Rat
  observed : List FaceData
  /-- detection records fed to the emotion-tally functions
  (`generate_context_from_emotions` / `plot_emotion_distribution`) during the
  run.  The loop body (lines 55-62) and the rest of `analyze_emotions`
  (lines 38-68) contain no call to either function, so nothing is ever fed. -/
  aggregated : List FaceData
  sourceReleased : Bool
  sinkReleased : Bool
  error : Option String
deriving DecidableEq

/-- `analyze_emotions(video_path, output_path)` (lines 38-68), parametrised by
the readable frames of the video (in decode order), the container-reported
`CAP_PROP_FRAME_COUNT` metadata value (line 48, may be 0 or wrong), and the
detector.  `video_capture.release()` / `output_video.release()` (lines 64-65)
run only after the loop finishes normally: there is no `try`/`finally`, so an
exception escaping the loop propagates to the caller with both handles still
open. -/
def analyze_emotions (det : Nat → AnalyzeOutcome) (frames : List Frame)
    (frame_count : Nat) : RunResult :=
  let out := processFrames det frame_count frames 0
  match out.err with
  | none => ⟨out.written, out.logs, out.progress, out.observed, [], true, true, none⟩
  | some e => ⟨out.written, out.logs, out.progress, out.observed, [], false, false, some e⟩

/-- The `emotion_counts` dictionary update
`emotion_counts[emotion] = emotion_counts.get(emotion, 0) + 1`
(lines 99, 115) on an insertion-ordered association list whose keys are
unique, as a Python dict's are. -/
def bump : List (String × Nat) → String → List (String × Nat)
  | [], emotion => [(emotion, 1)]
  | p :: rest, emotion =>
    if p.1 == emotion then (p.1, p.2 + 1) :: rest else p :: bump rest emotion

/-- The tally loop shared by `generate_context_from_emotions` (lines 96-99)
and `plot_emotion_distribution` (lines 112-115): count each record under
`face_data.get("dominant_emotion", "Unknown")`. -/
def emotion_counts (emotion_data : List FaceData) : List (String × Nat) :=
  emotion_data.foldl (fun counts fd => bump counts (fd.dominant_emotion?.getD "Unknown")) []

/-- Occurrence count of one label in a tally (`emotion_counts.get(k, 0)`). -/
def countGet (counts : List (String × Nat)) (k : String) : Nat :=
  dictGet counts k 0

/-- Total number of occurrences recorded in a tally. -/
def totalCount (counts : List (String × Nat)) : Nat :=
  (counts.map Prod.snd).sum

/-- Sample raw frames and detector behaviours used to instantiate the
theorems at concrete inputs. -/
def f0 : Frame := ⟨0, []⟩

def f1 : Frame := ⟨1, []⟩

def happyFace : FaceData := ⟨some ⟨some 10, some 20, some 30, some 40⟩, some "happy"⟩

def confusedFace : FaceData := ⟨some ⟨some 1, some 2, some 3, some 4⟩, some "confused"⟩

def noRegionFace : FaceData := ⟨none, some "sad"⟩

def detNone : Nat → AnalyzeOutcome := fun _ => AnalyzeOutcome.ok (AnalyzeValue.listed [])

def detHappy : Nat → AnalyzeOutcome := fun _ => AnalyzeOutcome.ok (AnalyzeValue.single happyFace)

def detRaise : Nat → AnalyzeOutcome := fun _ => AnalyzeOutcome.raises "boom"

/-! Helper lemmas about the loop trace. -/

theorem written_length (det : Nat → AnalyzeOutcome) (fc : Nat) (hfc : fc ≠ 0) :
    ∀ (frames : List Frame) (n : Nat),
      (processFrames det fc frames n).written.length = frames.length
  | [], _ => by simp [processFrames]
  | frame :: rest, n => by
      simp [processFrames, hfc, written_length det fc hfc rest (n + 1)]

theorem written_getElem (det : Nat → AnalyzeOutcome) (fc : Nat) (hfc : fc ≠ 0) :
    ∀ (frames : List Frame) (n i : Nat),
      (processFrames det fc frames n).written[i]? =
        (frames[i]?).map (fun frame => frameOutput det (n + i) frame)
  | [], _, i => by simp [processFrames]
  | frame :: rest, n, 0 => by simp [processFrames, hfc]
  | frame :: rest, n, i + 1 => by
      have ih := written_getElem det fc hfc rest (n + 1) i
      have h : n + 1 + i = n + (i + 1) := by omega
      rw [h] at ih
      simp [processFrames, hfc, ih]

theorem err_none (det : Nat → AnalyzeOutcome) (fc : Nat) (hfc : fc ≠ 0) :
    ∀ (frames : List Frame) (n : Nat), (processFrames det fc frames n).err = none
  | [], _ => rfl
  | frame :: rest, n => by
      simp [processFrames, hfc, err_none det fc hfc rest (n + 1)]

theorem err_zero (det : Nat → AnalyzeOutcome) :
    ∀ (frames : List Frame) (n : Nat), frames ≠ [] →
      (processFrames det 0 frames n).err = some "ZeroDivisionError"
  | [], _, h => absurd rfl h
  | frame :: rest, n, _ => by simp [processFrames]

theorem logs_mem (det : Nat → AnalyzeOutcome) (fc : Nat) (hfc : fc ≠ 0) :
    ∀ (frames : List Frame) (n i : Nat) (msg : String),
      i < frames.length → det (n + i) = AnalyzeOutcome.raises msg →
      (n + i, msg) ∈ (processFrames det fc frames n).logs
  | [], _, i, msg, hi, _ => absurd hi (by simp)
  | frame :: rest, n, 0, msg, hi, hdet => by
      have hd : det n = AnalyzeOutcome.raises msg := by simpa using hdet
      simp [processFrames, hfc, frameWarnings, hd]
  | frame :: rest, n, i + 1, msg, hi, hdet => by
      have hi' : i < rest.length := by
        have := hi
        simp only [List.length_cons] at this
        omega
      have h : n + 1 + i = n + (i + 1) := by omega
      have hdet' : det (n + 1 + i) = AnalyzeOutcome.raises msg := by rw [h]; exact hdet
      have ih := logs_mem det fc hfc rest (n + 1) i msg hi' hdet'
      rw [h] at ih
      simp only [processFrames, if_neg hfc, List.mem_append]
      exact Or.inr ih

theorem progress_spec (det : Nat → AnalyzeOutcome) (fc : Nat) (hfc : fc ≠ 0) :
    ∀ (frames : List Frame) (n : Nat),
      (processFrames det fc frames n).progress =
        (List.range frames.length).map
          (fun i => ((n + i + 1 : Nat) : Rat) / (fc : Rat))
  | [], _ => by simp [processFrames]
  | frame :: rest, n => by
      have ih := progress_spec det fc hfc rest (n + 1)
      have htail : List.map (fun i => ((n + 1 + i + 1 : Nat) : Rat) / (fc : Rat))
            (List.range rest.length)
          = List.map ((fun i => ((n + i + 1 : Nat) : Rat) / (fc : Rat)) ∘ Nat.succ)
            (List.range rest.length) := by
        apply List.map_congr_left
        intro a _
        simp only [Function.comp_apply]
        have h2 : n + Nat.succ a + 1 = n + 1 + a + 1 := by omega
        rw [h2]
      simp only [processFrames, if_neg hfc, ih, htail, List.length_cons,
        List.range_succ_eq_map, List.map_cons, List.map_map, Nat.add_zero]

theorem observed_nil (det : Nat → AnalyzeOutcome) (fc : Nat)
    (hdet : ∀ i, det i = AnalyzeOutcome.ok (AnalyzeValue.listed [])) :
    ∀ (frames : List Frame) (n : Nat), (processFrames det fc frames n).observed = []
  | [], _ => rfl
  | frame :: rest, n => by
      by_cases hfc : fc = 0
      · subst hfc
        simp [processFrames, frameObserved, hdet n, normalize_analysis]
      · simp [processFrames, hfc, frameObserved, hdet n, normalize_analysis,
          observed_nil det fc hdet rest (n + 1)]

theorem written_raw (det : Nat → AnalyzeOutcome) (fc : Nat) (hfc : fc ≠ 0)
    (hdet : ∀ i, det i = AnalyzeOutcome.ok (AnalyzeValue.listed [])) :
    ∀ (frames : List Frame) (n : Nat), (processFrames det fc frames n).written = frames
  | [], _ => rfl
  | frame :: rest, n => by
      simp [processFrames, hfc, frameOutput, hdet n, normalize_analysis,
        draw_emotions_on_frame, written_raw det fc hfc hdet rest (n + 1)]

/-! Helper lemmas connecting `analyze_emotions` to its loop, and about the
tally. -/

theorem analyze_written (det : Nat → AnalyzeOutcome) (frames : List Frame) (fc : Nat) :
    (analyze_emotions det frames fc).written = (processFrames det fc frames 0).written := by
  unfold analyze_emotions
  cases h : (processFrames det fc frames 0).err <;> simp [h]

theorem analyze_logs (det : Nat → AnalyzeOutcome) (frames : List Frame) (fc : Nat) :
    (analyze_emotions det frames fc).logs = (processFrames det fc frames 0).logs := by
  unfold analyze_emotions
  cases h : (processFrames det fc frames 0).err <;> simp [h]

theorem analyze_progress (det : Nat → AnalyzeOutcome) (frames : List Frame) (fc : Nat) :
    (analyze_emotions det frames fc).progress = (processFrames det fc frames 0).progress := by
  unfold analyze_emotions
  cases h : (processFrames det fc frames 0).err <;> simp [h]

theorem analyze_observed (det : Nat → AnalyzeOutcome) (frames : List Frame) (fc : Nat) :
    (analyze_emotions det frames fc).observed = (processFrames det fc frames 0).observed := by
  unfold analyze_emotions
  cases h : (processFrames det fc frames 0).err <;> simp [h]

theorem analyze_error (det : Nat → AnalyzeOutcome) (frames : List Frame) (fc : Nat) :
    (analyze_emotions det frames fc).error = (processFrames det fc frames 0).err := by
  unfold analyze_emotions
  cases h : (processFrames det fc frames 0).err <;> simp [h]

theorem analyze_aggregated (det : Nat → AnalyzeOutcome) (frames : List Frame) (fc : Nat) :
    (analyze_emotions det frames fc).aggregated = [] := by
  unfold analyze_emotions
  cases h : (processFrames det fc frames 0).err <;> simp [h]

theorem analyze_released (det : Nat → AnalyzeOutcome) (frames : List Frame) (fc : Nat) :
    ((analyze_emotions det frames fc).sourceReleased = true
        ↔ (analyze_emotions det frames fc).error = none)
      ∧ ((analyze_emotions det frames fc).sinkReleased = true
        ↔ (analyze_emotions det frames fc).error = none) := by
  unfold analyze_emotions
  cases h : (processFrames det fc frames 0).err <;> simp [h]

theorem totalCount_bump (emotion : String) :
    ∀ counts : List (String × Nat), totalCount (bump counts emotion) = totalCount counts + 1
  | [] => by simp [bump, totalCount]
  | p :: rest => by
      by_cases h : p.1 == emotion
      · simp only [bump, if_pos h, totalCount, List.map_cons, List.sum_cons]
        omega
      · have ih := totalCount_bump emotion rest
        simp only [totalCount] at ih
        simp only [bump, if_neg h, totalCount, List.map_cons, List.sum_cons, ih]
        omega

theorem dominant_getD_count (fd : FaceData) :
    countGet (emotion_counts [fd]) (fd.dominant_emotion?.getD "Unknown") = 1 := by
  simp [emotion_counts, bump, countGet, dictGet]

theorem totalCount_foldl (l : List FaceData) :
    ∀ counts : List (String × Nat),
      totalCount (l.foldl (fun c fd => bump c (fd.dominant_emotion?.getD "Unknown")) counts)
        = totalCount counts + l.length := by
  induction l with
  | nil => intro counts; simp
  | cons fd rest ih =>
      intro counts
      simp only [List.foldl_cons, List.length_cons, ih, totalCount_bump]
      omega

/-! Claim theorems. -/

/-- Claim C1, counterexample: a video whose container metadata reports
`CAP_PROP_FRAME_COUNT = 0` but which has 2 readable frames gets only 1 frame
written to the sink — the uncaught `ZeroDivisionError` from
`frame_number / frame_count` aborts the loop after the first write — so the
run does not write exactly N frames. -/
theorem sink_frame_count_mismatch_cex :
    (analyze_emotions detHappy [f0, f1] 0).written.length ≠ [f0, f1].length := by
  decide

/-- Claim C1, amended: provided the container-reported frame count is nonzero,
exactly one frame is written to the Video Sink per frame read from the Frame
Source — N in total for N readable frames — and a frame whose detection raised
an exception is written unannotated (exactly the raw frame that was read). -/
theorem sink_writes_one_frame_per_read_frame (det : Nat → AnalyzeOutcome)
    (frames : List Frame) (fc : Nat) (hfc : fc ≠ 0) :
    (analyze_emotions det frames fc).written.length = frames.length
      ∧ ∀ i msg, det i = AnalyzeOutcome.raises msg →
          (analyze_emotions det frames fc).written[i]? = frames[i]? := by
  constructor
  · rw [analyze_written]
    exact written_length det fc hfc frames 0
  · intro i msg hdet
    rw [analyze_written, written_getElem det fc hfc frames 0 i]
    have h0 : (0 : Nat) + i = i := by omega
    rw [h0]
    cases hfr : frames[i]? <;> simp [frameOutput, hdet]

theorem sink_writes_one_frame_per_read_frame_witness :
    (analyze_emotions detRaise [f0, f1] 2).written.length = [f0, f1].length
      ∧ (analyze_emotions detRaise [f0, f1] 2).written[0]? = [f0, f1][0]? := by
  have h := sink_writes_one_frame_per_read_frame detRaise [f0, f1] 2 (by decide)
  exact ⟨h.1, h.2 0 "boom" rfl⟩

/-- Claim C2, counterexample: for the label `"confused"`, which is not a key
of `EMOTIONS_COLORS`, the annotator draws with the literal fallback
`(255, 255, 255)` (white) and not with the table's `"Unknown"` entry
`(128, 128, 128)`, and the tally counts the record under `"confused"`, not
under `"Unknown"`. -/
theorem unknown_label_fallback_cex :
    (draw_emotions_on_frame f0 [confusedFace]).ops
        = [DrawOp.rectangle (1, 2) (4, 6) (255, 255, 255) 2,
           DrawOp.putText "confused" (1, -8) (9 / 10 : Rat) (255, 255, 255) 2]
      ∧ dictGet EMOTIONS_COLORS "Unknown" (255, 255, 255) = (128, 128, 128)
      ∧ ((255, 255, 255) : Color) ≠ (128, 128, 128)
      ∧ countGet (emotion_counts [confusedFace]) "Unknown" = 0
      ∧ countGet (emotion_counts [confusedFace]) "confused" = 1 :=
  ⟨rfl, rfl, by decide, rfl, rfl⟩

/-- Claim C2, amended: a detection whose `dominant_emotion` label is not a key
of `EMOTIONS_COLORS` is never dropped: the annotator draws its rectangle and
label text using the hard-coded fallback colour `(255, 255, 255)` (white, not
the table's `"Unknown"` entry), and the tally counts it under its own label
(the `"Unknown"` fallback applies only when the `dominant_emotion` key is
absent). -/
theorem unknown_label_drawn_and_counted (fd : FaceData) (r : Region)
    (lbl : String) (frame : Frame) (h1 : fd.region? = some r)
    (h2 : fd.dominant_emotion? = some lbl)
    (h3 : EMOTIONS_COLORS.find? (fun p => p.1 == lbl) = none) :
    (draw_emotions_on_frame frame [fd]).ops
        = frame.ops
          ++ [DrawOp.rectangle (r.x?.getD 0, r.y?.getD 0)
                (r.x?.getD 0 + r.w?.getD 0, r.y?.getD 0 + r.h?.getD 0)
                (255, 255, 255) 2,
              DrawOp.putText lbl (r.x?.getD 0, r.y?.getD 0 - 10) (9 / 10 : Rat)
                (255, 255, 255) 2]
      ∧ countGet (emotion_counts [fd]) lbl = 1 := by
  constructor
  · simp [draw_emotions_on_frame, draw_face, h1, h2, dictGet, h3,
      cv2_rectangle, cv2_putText]
  · simp [emotion_counts, h2, bump, countGet, dictGet]

theorem unknown_label_drawn_and_counted_witness :
    (draw_emotions_on_frame f0 [confusedFace]).ops
        = f0.ops
          ++ [DrawOp.rectangle (1, 2) (1 + 3, 2 + 4) (255, 255, 255) 2,
              DrawOp.putText "confused" (1, 2 - 10) (9 / 10 : Rat) (255, 255, 255) 2]
      ∧ countGet (emotion_counts [confusedFace]) "confused" = 1 :=
  unknown_label_drawn_and_counted confusedFace ⟨some 1, some 2, some 3, some 4⟩
    "confused" f0 rfl rfl (by decide)

/-- Claim C3, counterexample: progress reporting neither saturates nor
tolerates a zero frame count.  With 2 readable frames and a metadata count of
1 (an underestimate) the reported values are `[1, 2]` — the second exceeds 1.0
— and with a metadata count of 0 the division `frame_number / frame_count`
raises `ZeroDivisionError`, crashing the run after the first frame. -/
theorem progress_overflow_and_crash_cex :
    (analyze_emotions detNone [f0, f1] 1).progress = [(1 : Rat), 2]
      ∧ ¬((2 : Rat) ≤ 1)
      ∧ (analyze_emotions detNone [f0] 0).error = some "ZeroDivisionError" := by
  refine ⟨?_, by norm_num, rfl⟩
  rw [analyze_progress, progress_spec detNone 1 (by decide) [f0, f1] 0]
  norm_num [List.range_succ]

/-- Claim C3, amended: for a nonzero container-reported `frame_count`, the
value reported after processing frame `i` is exactly `(i+1)/frame_count`, with
no saturation; the sequence is monotonically non-decreasing, the run finishes
without an uncaught exception, and when `frame_count` equals the true number
of readable frames (and is nonzero) the last reported value is 1.0.  (When
`frame_count` is 0 and at least one frame is readable, the run instead raises
`ZeroDivisionError`, and when `frame_count` underestimates, reported values
exceed 1.0 — see the counterexample.) -/
theorem progress_exact_quotients (det : Nat → AnalyzeOutcome)
    (frames : List Frame) (fc : Nat) (hfc : fc ≠ 0) :
    (analyze_emotions det frames fc).progress
        = (List.range frames.length).map
            (fun i => ((i + 1 : Nat) : Rat) / (fc : Rat))
      ∧ List.Chain' (fun a b => a ≤ b) (analyze_emotions det frames fc).progress
      ∧ (analyze_emotions det frames fc).error = none
      ∧ (fc = frames.length → frames ≠ [] →
          (analyze_emotions det frames fc).progress.getLast? = some 1) := by
  have hfcpos : (0 : Rat) < (fc : Rat) := by
    exact_mod_cast Nat.pos_of_ne_zero hfc
  have hform : (analyze_emotions det frames fc).progress
      = (List.range frames.length).map
          (fun i => ((i + 1 : Nat) : Rat) / (fc : Rat)) := by
    rw [analyze_progress, progress_spec det fc hfc frames 0]
    apply List.map_congr_left
    intro a _
    have h0 : 0 + a + 1 = a + 1 := by omega
    rw [h0]
  refine ⟨hform, ?_, ?_, ?_⟩
  · rw [hform]
    rcases frames with _ | ⟨frame, rest⟩
    · simp
    · rw [List.chain'_map]
      rw [List.length_cons]
      refine (List.chain'_range_succ _ rest.length).mpr ?_
    
      intro m _
      rw [div_le_div_iff_of_pos_right hfcpos]
      exact_mod_cast Nat.le_of_lt (by omega)
  · rw [analyze_error]
    exact err_none det fc hfc frames 0
  · intro hlen hne
    rw [hform]
    obtain ⟨m, hm⟩ : ∃ m, frames.length = m + 1 := by
      rcases frames with _ | ⟨frame, rest⟩
      · exact absurd rfl hne
      · exact ⟨rest.length, rfl⟩
    rw [hm, List.range_succ, List.map_append, List.map_cons, List.map_nil,
      List.getLast?_concat]
    rw [hlen, hm]
    have hne0 : ((m : Rat) + 1) ≠ 0 := by positivity
    push_cast
    rw [div_self hne0]

theorem progress_exact_quotients_witness :
    (analyze_emotions detNone [f0, f1] 2).progress
        = (List.range ([f0, f1].length)).map
            (fun i => ((i + 1 : Nat) : Rat) / ((2 : Nat) : Rat))
      ∧ List.Chain' (fun a b => a ≤ b) (analyze_emotions detNone [f0, f1] 2).progress
      ∧ (analyze_emotions detNone [f0, f1] 2).error = none
      ∧ (analyze_emotions detNone [f0, f1] 2).progress.getLast? = some 1 := by
  have h := progress_exact_quotients detNone [f0, f1] 2 (by decide)
  exact ⟨h.1, h.2.1, h.2.2.1, h.2.2.2 rfl (by decide)⟩

/-- Claim C4, counterexample: a run in which the detector succeeds with one
`"happy"` record observes 1 FaceDetection record, but no record is ever fed to
the emotion-tally functions (`analyze_emotions` never calls them), so the
end-of-run histogram total is 0, not the number of records observed. -/
theorem histogram_not_fed_cex :
    (analyze_emotions detHappy [f0] 1).observed.length = 1
      ∧ totalCount (emotion_counts ((analyze_emotions detHappy [f0] 1).aggregated))
          ≠ (analyze_emotions detHappy [f0] 1).observed.length := by
  constructor
  · rfl
  · rw [analyze_aggregated]
    decide

/-- Claim C4, amended: the emotion-tally functions, applied to any list of
FaceDetection records, produce a histogram whose total count equals the number
of records (not the frame count); however, `analyze_emotions` never feeds any
detection record into them, so at the end of every run the set of records that
reached the aggregator is empty. -/
theorem tally_total_is_record_count :
    (∀ emotion_data : List FaceData,
        totalCount (emotion_counts emotion_data) = emotion_data.length)
      ∧ ∀ (det : Nat → AnalyzeOutcome) (frames : List Frame) (fc : Nat),
          (analyze_emotions det frames fc).aggregated = [] := by
  constructor
  · intro emotion_data
    have h := totalCount_foldl emotion_data []
    simpa [emotion_counts, totalCount] using h
  · intro det frames fc
    exact analyze_aggregated det frames fc

/-- Claim C5: when the detector raises on frame `i` (and the metadata frame
count is nonzero, so the orthogonal progress crash of C3 does not occur), the
exception is caught, a warning carrying the frame index and the failure reason
is logged, the raw unannotated frame is still written to the sink, every
remaining frame is still processed (the sink receives all N frames), and the
run finishes without an uncaught exception — it never fails because of a
per-frame detector error. -/
theorem detector_error_skip_and_continue (det : Nat → AnalyzeOutcome)
    (frames : List Frame) (fc : Nat) (i : Nat) (msg : String) (hfc : fc ≠ 0)
    (hi : i < frames.length) (hdet : det i = AnalyzeOutcome.raises msg) :
    (i, msg) ∈ (analyze_emotions det frames fc).logs
      ∧ (analyze_emotions det frames fc).written[i]? = frames[i]?
      ∧ (analyze_emotions det frames fc).written.length = frames.length
      ∧ (analyze_emotions det frames fc).error = none := by
  refine ⟨?_, ?_, ?_, ?_⟩
  · rw [analyze_logs]
    have h := logs_mem det fc hfc frames 0 i msg hi (by simpa using hdet)
    simpa using h
  · rw [analyze_written, written_getElem det fc hfc frames 0 i]
    have h0 : (0 : Nat) + i = i := by omega
    rw [h0]
    cases hfr : frames[i]? <;> simp [frameOutput, hdet]
  · rw [analyze_written]
    exact written_length det fc hfc frames 0
  · rw [analyze_error]
    exact err_none det fc hfc frames 0

theorem detector_error_skip_and_continue_witness :
    (0, "boom") ∈ (analyze_emotions detRaise [f0, f1] 2).logs
      ∧ (analyze_emotions detRaise [f0, f1] 2).written[0]? = [f0, f1][0]?
      ∧ (analyze_emotions detRaise [f0, f1] 2).written.length = [f0, f1].length
      ∧ (analyze_emotions detRaise [f0, f1] 2).error = none :=
  detector_error_skip_and_continue detRaise [f0, f1] 2 0 "boom" (by decide)
    (by decide) rfl

/-- Claim C6, counterexample: on the fatal `ZeroDivisionError` exit path from
the streaming loop, the error is surfaced to the caller with neither the
source handle nor the sink's output file released —
`video_capture.release()` / `output_video.release()` run only after the loop,
with no `try`/`finally`. -/
theorem resources_leak_on_fatal_error_cex :
    (analyze_emotions detHappy [f0] 0).error = some "ZeroDivisionError"
      ∧ (analyze_emotions detHappy [f0] 0).sourceReleased = false
      ∧ (analyze_emotions detHappy [f0] 0).sinkReleased = false :=
  ⟨rfl, rfl, rfl⟩

/-- Claim C6, amended: the source handle and the sink's output file are
released exactly on the normal end-of-stream exit from the loop (which
includes runs that took the skip-and-continue detection-error path); on any
exit where an uncaught exception leaves the loop, the error is surfaced with
both handles still open. -/
theorem resources_released_iff_normal_exit (det : Nat → AnalyzeOutcome)
    (frames : List Frame) (fc : Nat) :
    ((analyze_emotions det frames fc).error = none →
        (analyze_emotions det frames fc).sourceReleased = true
          ∧ (analyze_emotions det frames fc).sinkReleased = true)
      ∧ ((analyze_emotions det frames fc).error ≠ none →
        (analyze_emotions det frames fc).sourceReleased = false
          ∧ (analyze_emotions det frames fc).sinkReleased = false) := by
  have h := analyze_released det frames fc
  constructor
  · intro he
    exact ⟨h.1.mpr he, h.2.mpr he⟩
  · intro he
    constructor
    · cases hb : (analyze_emotions det frames fc).sourceReleased
      · rfl
      · exact absurd (h.1.mp hb) he
    · cases hb : (analyze_emotions det frames fc).sinkReleased
      · rfl
      · exact absurd (h.2.mp hb) he

theorem resources_released_iff_normal_exit_witness :
    (analyze_emotions detRaise [f0] 1).sourceReleased = true
      ∧ (analyze_emotions detRaise [f0] 1).sinkReleased = true :=
  (resources_released_iff_normal_exit detRaise [f0] 1).1 rfl

/-- Claim C7: annotating with an empty detection list is the identity on the
frame (no drawing operation is applied to its raster), so when the detector
returns zero faces for every frame (and the metadata frame count is nonzero,
so the run completes), the output video consists of exactly the input frames,
pixel-identical, and tallying the detections observed during the run yields
the empty histogram. -/
theorem empty_detections_identity (det : Nat → AnalyzeOutcome)
    (frames : List Frame) (fc : Nat) (hfc : fc ≠ 0)
    (hdet : ∀ i, det i = AnalyzeOutcome.ok (AnalyzeValue.listed [])) :
    (∀ frame, draw_emotions_on_frame frame [] = frame)
      ∧ (analyze_emotions det frames fc).written = frames
      ∧ emotion_counts ((analyze_emotions det frames fc).observed) = [] := by
  refine ⟨fun frame => rfl, ?_, ?_⟩
  · rw [analyze_written]
    exact written_raw det fc hfc hdet frames 0
  · rw [analyze_observed, observed_nil det fc hdet frames 0]
    rfl

theorem empty_detections_identity_witness :
    (∀ frame, draw_emotions_on_frame frame [] = frame)
      ∧ (analyze_emotions detNone [f0, f1] 2).written = [f0, f1]
      ∧ emotion_counts ((analyze_emotions detNone [f0, f1] 2).observed) = [] :=
  empty_detections_identity detNone [f0, f1] 2 (by decide) (fun _ => rfl)

/-- Claim C8: the detector's heterogeneous return shape is normalised at the
pipeline boundary — a single (non-list) record becomes a one-element list, a
list is passed through unchanged — and on every frame where the detector
succeeds, the frame written to the sink is the annotator applied to exactly
that normalised list. -/
theorem single_record_normalized_to_list (det : Nat → AnalyzeOutcome)
    (frames : List Frame) (fc : Nat) (i : Nat) (v : AnalyzeValue)
    (hfc : fc ≠ 0) (hdet : det i = AnalyzeOutcome.ok v) :
    (∀ fd, normalize_analysis (AnalyzeValue.single fd) = [fd])
      ∧ (∀ fds, normalize_analysis (AnalyzeValue.listed fds) = fds)
      ∧ (analyze_emotions det frames fc).written[i]?
          = (frames[i]?).map
              (fun frame => draw_emotions_on_frame frame (normalize_analysis v)) := by
  refine ⟨fun fd => rfl, fun fds => rfl, ?_⟩
  rw [analyze_written, written_getElem det fc hfc frames 0 i]
  have h0 : (0 : Nat) + i = i := by omega
  rw [h0]
  cases hfr : frames[i]? <;> simp [frameOutput, hdet]

theorem single_record_normalized_to_list_witness :
    (∀ fd, normalize_analysis (AnalyzeValue.single fd) = [fd])
      ∧ (∀ fds, normalize_analysis (AnalyzeValue.listed fds) = fds)
      ∧ (analyze_emotions detHappy [f0] 1).written[0]?
          = ([f0][0]?).map
              (fun frame =>
                draw_emotions_on_frame frame
                  (normalize_analysis (AnalyzeValue.single happyFace))) :=
  single_record_normalized_to_list detHappy [f0] 1 0 (AnalyzeValue.single happyFace)
    (by decide) rfl

/-- A detection whose region lies far outside any realistic frame bounds
(negative origin, enormous extent), used to instantiate claim C9. -/
def oobFace : FaceData :=
  ⟨some ⟨some (-100), some (-200), some 1000000, some 1000000⟩, some "happy"⟩

/-- Claim C9: a detection whose region rectangle has arbitrary coordinates —
including ones partially or fully outside the frame bounds — is handled
without raising (the OpenCV drawing calls clip; nothing in
`draw_emotions_on_frame` inspects the frame bounds), and the frame, annotated,
is still forwarded to the sink, with the sink still receiving every frame of
the run. -/
theorem out_of_bounds_region_tolerated (x y w h : Int) (lbl : String)
    (det : Nat → AnalyzeOutcome) (frames : List Frame) (fc : Nat) (i : Nat)
    (hfc : fc ≠ 0) (hi : i < frames.length)
    (hdet : det i
      = AnalyzeOutcome.ok
          (AnalyzeValue.listed [⟨some ⟨some x, some y, some w, some h⟩, some lbl⟩])) :
    (analyze_emotions det frames fc).written.length = frames.length
      ∧ (analyze_emotions det frames fc).written[i]?
          = some (draw_emotions_on_frame (frames.get ⟨i, hi⟩)
              [⟨some ⟨some x, some y, some w, some h⟩, some lbl⟩]) := by
  constructor
  · rw [analyze_written]
    exact written_length det fc hfc frames 0
  · rw [analyze_written, written_getElem det fc hfc frames 0 i]
    have h0 : (0 : Nat) + i = i := by omega
    rw [h0]
    rw [List.getElem?_eq_getElem hi]
    simp [frameOutput, hdet, normalize_analysis]

theorem out_of_bounds_region_tolerated_witness :
    (analyze_emotions (fun _ => AnalyzeOutcome.ok (AnalyzeValue.listed [oobFace]))
        [f0] 1).written.length = [f0].length
      ∧ (analyze_emotions (fun _ => AnalyzeOutcome.ok (AnalyzeValue.listed [oobFace]))
          [f0] 1).written[0]?
        = some (draw_emotions_on_frame f0 [oobFace]) :=
  out_of_bounds_region_tolerated (-100) (-200) 1000000 1000000 "happy"
    (fun _ => AnalyzeOutcome.ok (AnalyzeValue.listed [oobFace])) [f0] 1 0
    (by decide) (by decide) rfl

/-- Claim C10: a record with no `"region"` key is silently skipped by the
annotator — the frame is returned unchanged, nothing is drawn and nothing is
raised — while the tally functions still count its dominant emotion; and a
record whose region is present but has none of the `x`, `y`, `w`, `h` keys is
drawn with all four coordinates defaulted to 0 (rectangle from `(0, 0)` to
`(0, 0)`, text at `(0, -10)`). -/
theorem region_free_record_counted_not_drawn (fd : FaceData) (frame : Frame)
    (hr : fd.region? = none) :
    draw_emotions_on_frame frame [fd] = frame
      ∧ countGet (emotion_counts [fd]) (fd.dominant_emotion?.getD "Unknown") = 1
      ∧ (∀ (lbl : String) (fr : Frame),
          draw_emotions_on_frame fr [⟨some ⟨none, none, none, none⟩, some lbl⟩]
            = cv2_putText
                (cv2_rectangle fr (0, 0) (0, 0)
                  (dictGet EMOTIONS_COLORS lbl (255, 255, 255)) 2)
                lbl (0, -10) (9 / 10 : Rat)
                (dictGet EMOTIONS_COLORS lbl (255, 255, 255)) 2) := by
  refine ⟨?_, dominant_getD_count fd, fun lbl fr => ?_⟩
  · simp [draw_emotions_on_frame, draw_face, hr]
  · simp [draw_emotions_on_frame, draw_face, normalize_analysis]

theorem region_free_record_counted_not_drawn_witness :
    draw_emotions_on_frame f0 [noRegionFace] = f0
      ∧ countGet (emotion_counts [noRegionFace])
          (noRegionFace.dominant_emotion?.getD "Unknown") = 1 :=
  ⟨(region_free_record_counted_not_drawn noRegionFace f0 rfl).1,
   (region_free_record_counted_not_drawn noRegionFace f0 rfl).2.1⟩
